import Mathlib

/-!
Shallow embedding of the Axon request pipeline of
`src/bittensor/_axon/axon_impl.py` (the `_forward` and `_backward`
methods): request validation, per-synapse deserialization, the compute
stage (direct or priority-threadpool mode), response serialization, and
the per-synapse code/message/call-time bookkeeping.

External collaborators are modelled by their observable behaviour on the
call at hand: tensor payloads are abstract tokens; a codec method either
returns a value, raises a `ValueError` carrying a message, or raises any
other exception; an external invocation (the priority function, the
threadpool future, or the directly invoked callback) either returns its
value, raises `concurrent.futures.TimeoutError`, or raises any other
exception.  Each wall-clock reading `clock.time() - start_time` is
modelled by an abstract `Clock` record giving the elapsed value observed
at each distinct call site.  Ghost flags in the result record whether the
decode stage ran, whether the compute callback was invoked or submitted,
and whether any per-synapse response tensor serialization was invoked.
-/

namespace Axon

/-- An abstract (serialized or deserialized) tensor payload. -/
abbrev Payload := Nat

/-- The members of `bittensor.proto.ReturnCode` used by the pipeline. -/
inductive ReturnCode
  | Success
  | Timeout
  | NotImplemented
  | EmptyRequest
  | EmptyResponse
  | InvalidRequest
  | RequestShapeException
  | ResponseShapeException
  | RequestDeserializationException
  | ResponseSerializationException
  | UnknownException
  deriving DecidableEq, Repr

/-- Outcome of one codec decoding call: a value, a raised `ValueError`
with its message, or any other raised exception with its message. -/
inductive DecodeRes
  | ok (v : Payload)
  | valueErr (msg : String)
  | otherErr (msg : String)
  deriving DecidableEq, Repr

/-- Outcome of one response tensor serialization call: a wire payload, a
raised `ValueError` with its message, or any other raised exception. -/
inductive EncodeRes
  | ok (p : Payload)
  | valueErr (msg : String)
  | otherErr (msg : String)
  deriving DecidableEq, Repr

/-- Outcome of one external invocation: a returned value, a raised
`concurrent.futures.TimeoutError`, or any other raised exception. -/
inductive CalcRes (α : Type)
  | ok (v : α)
  | timeoutE
  | exnE (msg : String)
  deriving DecidableEq, Repr

/-- The callbacks return a triple of per-synapse response tensors (maybe
`None`), per-synapse return codes, and per-synapse messages. -/
abbrev ComputeOut := List (Option Payload) × List ReturnCode × List String

/-- One synapse instance object, modelled by the observable behaviour of
its codec methods on this call: `decodeF` is
`deserialize_forward_request_tensor`, `decodeB` is
`deserialize_backward_request_gradient`, `encodeF` is
`serialize_forward_response_tensor`, and `emptyP` is the payload built by
`synapse.empty()`. -/
structure Syn where
  decodeF : Payload → DecodeRes
  decodeB : Payload → Payload → DecodeRes
  encodeF : Option Payload → Option Payload → EncodeRes
  emptyP : Payload

/-- Elapsed wall-clock value (`clock.time() - start_time`) observed at
each distinct clock call site of the pipeline; per-index sites take the
synapse index. -/
structure Clock where
  tEmpty : Nat
  tInvalid : Nat
  tShape : Nat
  tTimeout : Nat
  tUnknown : Nat
  tDecode : Nat → Nat
  tEncode : Nat → Nat
  tFinal : Nat → Nat

/-- Axon configuration relevant to dispatch: whether a priority function
is configured (`self.priority != None`). -/
structure AxonCfg where
  priorityMode : Bool
  deriving DecidableEq, Repr

/-- One entry of the parallel per-synapse bookkeeping arrays
`synapse_codes`, `synapse_messages`, `synapse_call_times`, together with
the deserialized input slot for this synapse. -/
structure SynState where
  code : ReturnCode
  message : String
  callTime : Nat
  input : Option Payload
  deriving DecidableEq, Repr

/-- Observable result of `_forward` or `_backward`: the returned payload
list, the overall return code, the final per-synapse codes, messages and
call times written back onto the wire synapses, the final
`synapse_is_response` flags, and ghost flags recording whether the decode
stage ran, whether the compute callback was invoked or submitted, and
whether any per-synapse response tensor serialization was invoked. -/
structure CallResult where
  tensors : List Payload
  code : ReturnCode
  codes : List ReturnCode
  messages : List String
  callTimes : List Nat
  isResponse : List Bool
  decodeInvoked : Bool
  computeInvoked : Bool
  serializeInvoked : Bool
  deriving DecidableEq, Repr

/-- Initial per-synapse state, one entry per synapse: code `Success`,
message `"Success"`, call time `0`, no deserialized input yet. -/
def initState (n : Nat) : List SynState :=
  List.replicate n { code := .Success, message := "Success", callTime := 0, input := none }

/-- Initial `synapse_is_response` array: every entry starts `False`
(not yet a response). -/
def initIsResponse (n : Nat) : List Bool :=
  List.replicate n false

/-- `check_if_should_return`: true exactly when no synapse code is
`Success`. -/
def shouldReturn (codes : List ReturnCode) : Bool :=
  codes.all fun c => !(c == ReturnCode.Success)

/-- `synapse_codes[0]`; only read on paths where the list is nonempty. -/
def firstCode (codes : List ReturnCode) : ReturnCode :=
  codes.headD ReturnCode.Success

/-- A call-wide uniform result: every synapse outcome overwritten with
the same code, message and call time, and an empty payload returned. -/
def uniformResult (n : Nat) (code : ReturnCode) (msg : String) (t : Nat)
    (isResp : List Bool) (dInv cInv : Bool) : CallResult where
  tensors := []
  code := code
  codes := List.replicate n code
  messages := List.replicate n msg
  callTimes := List.replicate n t
  isResponse := isResp
  decodeInvoked := dInv
  computeInvoked := cInv
  serializeInvoked := false

/-- Build a `CallResult` by projecting the per-synapse states. -/
def stateResult (sts : List SynState) (ret : List Payload)
    (code : ReturnCode) (isResp : List Bool) (dInv cInv sInv : Bool) :
    CallResult where
  tensors := ret
  code := code
  codes := sts.map (·.code)
  messages := sts.map (·.message)
  callTimes := sts.map (·.callTime)
  isResponse := isResp
  decodeInvoked := dInv
  computeInvoked := cInv
  serializeInvoked := sInv

/-- One iteration of the forward deserialization loop at index `i`,
updating the initial state entry `s0`: on success only the deserialized
input slot is filled; a `ValueError` marks `RequestShapeException` and
any other exception marks `RequestDeserializationException`. -/
def decodeOneF (clk : Clock) (i : Nat) (s0 : SynState) (syn : Syn)
    (t : Payload) : SynState :=
  match syn.decodeF t with
  | .ok v => { s0 with input := some v }
  | .valueErr m =>
      { s0 with
          code := .RequestShapeException
          message := "Input shape exception with error:" ++ m
          callTime := clk.tDecode i }
  | .otherErr m =>
      { s0 with
          code := .RequestDeserializationException
          message := "Input deserialization exception with error:" ++ m
          callTime := clk.tDecode i }

/-- The forward deserialization stage over the whole batch, updating the
initial state entries index by index. -/
def decodeStageF (clk : Clock) (i : Nat) :
    List SynState → List Syn → List Payload → List SynState
  | [], _, _ => []
  | _, [], _ => []
  | _, _, [] => []
  | s0 :: is, syn :: ss, t :: ts =>
      decodeOneF clk i s0 syn t :: decodeStageF clk (i + 1) is ss ts

/-- One iteration of the backward deserialization loop at index `i`: the
forward tensor is deserialized first, then the gradient against it; the
two exception handlers are shared by both calls. -/
def decodeOneB (clk : Clock) (i : Nat) (s0 : SynState) (syn : Syn)
    (t g : Payload) : SynState :=
  match syn.decodeF t with
  | .ok v =>
      match syn.decodeB v g with
      | .ok _ => { s0 with input := some v }
      | .valueErr m =>
          { s0 with
              code := .RequestShapeException
              message := "Input shape exception with error:" ++ m
              callTime := clk.tDecode i
              input := some v }
      | .otherErr m =>
          { s0 with
              code := .RequestDeserializationException
              message := "Input deserialization exception with error:" ++ m
              callTime := clk.tDecode i
              input := some v }
  | .valueErr m =>
      { s0 with
          code := .RequestShapeException
          message := "Input shape exception with error:" ++ m
          callTime := clk.tDecode i }
  | .otherErr m =>
      { s0 with
          code := .RequestDeserializationException
          message := "Input deserialization exception with error:" ++ m
          callTime := clk.tDecode i }

/-- The backward deserialization stage, consuming the forward tensors
(`request.tensors[i]`) and the gradients (`request.tensors[n + i]`) in
parallel. -/
def decodeStageB (clk : Clock) (i : Nat) :
    List SynState → List Syn → List Payload → List Payload → List SynState
  | [], _, _, _ => []
  | _, [], _, _ => []
  | _, _, [], _ => []
  | _, _, _, [] => []
  | s0 :: is, syn :: ss, t :: ts, g :: gs =>
      decodeOneB clk i s0 syn t g :: decodeStageB clk (i + 1) is ss ts gs

/-- The loop filling per-synapse codes and messages from the callback
result triple; call times and input slots are left unchanged. -/
def fillStates : List SynState → List ReturnCode → List String → List SynState
  | [], _, _ => []
  | _, [], _ => []
  | _, _, [] => []
  | s :: sts, c :: cs, m :: ms =>
      { s with code := c, message := m } :: fillStates sts cs ms

/-- One iteration of the forward response serialization loop.  A synapse
still marked `Success` has its response tensor serialized (an out of
range read of the callback output list raises an `IndexError`, caught by
the generic handler); a synapse already marked failed only receives the
empty response. -/
def encodeOne (clk : Clock) (i : Nat) (syn : Syn) (s : SynState)
    (outAt : Option (Option Payload)) : SynState × Payload :=
  if s.code = ReturnCode.Success then
    match outAt with
    | none =>
        ({ s with
            code := .ResponseSerializationException
            message := "Synapse response serialization exception with error: list index out of range"
            callTime := clk.tEncode i }, syn.emptyP)
    | some out =>
        match syn.encodeF s.input out with
        | .ok p => (s, p)
        | .valueErr m =>
            ({ s with
                code :=
                  if m = "Empty Response" then ReturnCode.EmptyResponse
                  else ReturnCode.ResponseShapeException
                message := "Synapse response shape exception with error: " ++ m
                callTime := clk.tEncode i }, syn.emptyP)
        | .otherErr m =>
            ({ s with
                code := .ResponseSerializationException
                message := "Synapse response serialization exception with error: " ++ m
                callTime := clk.tEncode i }, syn.emptyP)
  else (s, syn.emptyP)

/-- The forward response serialization stage over the whole batch. -/
def encodeStage (clk : Clock) (i : Nat) :
    List Syn → List SynState → List (Option Payload) → List (SynState × Payload)
  | [], _, _ => []
  | _, [], _ => []
  | syn :: ss, s :: sts, outs =>
      encodeOne clk i syn s outs.head? :: encodeStage clk (i + 1) ss sts outs.tail

/-- True exactly when the serialization loop invokes
`serialize_forward_response_tensor` for at least one synapse: the synapse
is still `Success` and its callback output index is in range. -/
def serializeHappens : List SynState → List (Option Payload) → Bool
  | [], _ => false
  | s :: sts, outs =>
      (s.code == ReturnCode.Success && !outs.isEmpty) || serializeHappens sts outs.tail

/-- The final loop setting the call time of every still successful
synapse (forward variant, carrying the response payloads). -/
def setFinalTimes (clk : Clock) (i : Nat) :
    List (SynState × Payload) → List (SynState × Payload)
  | [] => []
  | p :: ps =>
      (if p.1.code = ReturnCode.Success then
        ({ p.1 with callTime := clk.tFinal i }, p.2)
      else p) :: setFinalTimes clk (i + 1) ps

/-- The final loop setting the call time of every still successful
synapse (backward variant). -/
def setFinalTimesB (clk : Clock) (i : Nat) : List SynState → List SynState
  | [] => []
  | s :: sts =>
      (if s.code = ReturnCode.Success then { s with callTime := clk.tFinal i }
      else s) :: setFinalTimesB clk (i + 1) sts

/-- Observable outcome of the forward compute stage: in priority mode the
priority function runs first inside the shared try block (so its raised
exception reaches the same handlers), then the future result is awaited;
in direct mode the callback is invoked synchronously.  This merges the
two possible sources of a raised `concurrent.futures.TimeoutError`
(priority function versus future) into one `timeoutE` outcome; the merge
is accurate only on inputs where `_forward` returns — on the one input
region where the distinction is observable, `_forward` does not return at
all (see `axonForwardE`). -/
def computeOutcome (cfg : AxonCfg) (prio : CalcRes Unit)
    (cb : CalcRes ComputeOut) : CalcRes ComputeOut :=
  if cfg.priorityMode then
    match prio with
    | .ok _ => cb
    | .timeoutE => .timeoutE
    | .exnE m => .exnE m
  else cb

/-- Whether the forward callback gets invoked (or submitted to the pool):
always in direct mode; in priority mode only when the priority function
returns normally. -/
def computeSubmitted (cfg : AxonCfg) (prio : CalcRes Unit) : Bool :=
  if cfg.priorityMode then
    match prio with
    | .ok _ => true
    | _ => false
  else true

/-- The full forward decode stage applied to the initial state. -/
def decF (clk : Clock) (syns : List Syn) (tensors : List Payload) :
    List SynState :=
  decodeStageF clk 0 (initState syns.length) syns tensors

/-- The full backward decode stage applied to the initial state: the
first `n` payloads are the forward tensors and the last `n` payloads are
the gradients. -/
def decB (clk : Clock) (syns : List Syn) (tensors : List Payload) :
    List SynState :=
  decodeStageB clk 0 (initState syns.length) syns
    (tensors.take syns.length) (tensors.drop syns.length)

/-- The forward serialization stage applied to the post-compute states. -/
def encF (clk : Clock) (syns : List Syn) (tensors : List Payload)
    (fCodes : List ReturnCode) (fMsgs : List String)
    (outs : List (Option Payload)) : List (SynState × Payload) :=
  encodeStage clk 0 syns (fillStates (decF clk syns tensors) fCodes fMsgs) outs

/-- Shallow embedding of the return-reaching paths of `Axon._forward`:
empty-request check, request length check, per-synapse deserialization
with a short-circuit check, the compute stage with its timeout and
generic exception handlers, the per-synapse response serialization loop
with a short-circuit check, and the final call-time loop.  This function
gives the returned triple of every input on which `_forward` returns;
the one input region on which `_forward` raises instead of returning
(priority mode, the priority function itself raises
`concurrent.futures.TimeoutError`) is carved out by the total model
`axonForwardE`, which agrees with this function everywhere else. -/
def axonForward (cfg : AxonCfg) (clk : Clock) (syns : List Syn)
    (tensors : List Payload) (prio : CalcRes Unit)
    (cb : CalcRes ComputeOut) : CallResult :=
  if tensors.length = 0 then
    uniformResult syns.length .EmptyRequest
      ("Forward request contains " ++ toString tensors.length ++
        " tensors, expected 1 tensor in the forward call")
      clk.tEmpty (initIsResponse syns.length) false false
  else if tensors.length ≠ syns.length then
    uniformResult syns.length .RequestShapeException
      "Request length doesn\x27t match synape length." clk.tShape
      (initIsResponse syns.length) false false
  else if shouldReturn ((decF clk syns tensors).map (·.code)) then
    stateResult (decF clk syns tensors) []
      (firstCode ((decF clk syns tensors).map (·.code)))
      (initIsResponse syns.length) true false false
  else
    match computeOutcome cfg prio cb with
    | .timeoutE =>
        uniformResult syns.length .Timeout "Request reached timeout"
          clk.tTimeout (initIsResponse syns.length) true
          (computeSubmitted cfg prio)
    | .exnE m =>
        uniformResult syns.length .UnknownException m clk.tUnknown
          (initIsResponse syns.length) true (computeSubmitted cfg prio)
    | .ok (outs, fCodes, fMsgs) =>
        if fCodes.length < syns.length ∨ fMsgs.length < syns.length then
          uniformResult syns.length .UnknownException "list index out of range"
            clk.tUnknown (List.replicate syns.length true) true true
        else
          if shouldReturn ((encF clk syns tensors fCodes fMsgs outs).map (·.1.code)) then
            stateResult ((encF clk syns tensors fCodes fMsgs outs).map (·.1)) []
              (firstCode ((encF clk syns tensors fCodes fMsgs outs).map (·.1.code)))
              (List.replicate syns.length true) true true
              (serializeHappens (fillStates (decF clk syns tensors) fCodes fMsgs) outs)
          else
            stateResult
              ((setFinalTimes clk 0 (encF clk syns tensors fCodes fMsgs outs)).map (·.1))
              ((setFinalTimes clk 0 (encF clk syns tensors fCodes fMsgs outs)).map (·.2))
              .Success (List.replicate syns.length true) true true
              (serializeHappens (fillStates (decF clk syns tensors) fCodes fMsgs) outs)

/-- Total shallow embedding of `Axon._forward`, exceptions included.
When the compute try block is reached (nonempty payloads, matching
lengths, at least one synapse decoded) in priority mode and the priority
function raises `concurrent.futures.TimeoutError`, control enters the
`except concurrent.futures.TimeoutError` handler, which unconditionally
runs `future.cancel()` under `if self.priority != None` — but the local
`future` is assigned only after the priority call returns, so the
handler itself raises `UnboundLocalError`; an exception raised inside an
except block is not caught by the sibling `except Exception` handler of
the same try statement, so it escapes `_forward`.  On every other input
`_forward` returns the triple modelled by `axonForward`. -/
def axonForwardE (cfg : AxonCfg) (clk : Clock) (syns : List Syn)
    (tensors : List Payload) (prio : CalcRes Unit)
    (cb : CalcRes ComputeOut) : Except String CallResult :=
  if tensors.length ≠ 0 ∧ tensors.length = syns.length ∧
      shouldReturn ((decF clk syns tensors).map (·.code)) = false ∧
      cfg.priorityMode = true ∧ prio = CalcRes.timeoutE then
    .error "UnboundLocalError: local variable \x27future\x27 referenced before assignment"
  else
    .ok (axonForward cfg clk syns tensors prio cb)

/-- Shallow embedding of `Axon._backward`: empty-request check, minimum
length check, request length check, per-synapse deserialization of the
forward tensors and gradients with a short-circuit check, and the compute
stage — a fire-and-forget submission in priority mode (the future result
is never read), a synchronous invocation in direct mode — followed by the
final short-circuit check and call-time loop.  The returned payload list
is empty on every path. -/
def axonBackward (cfg : AxonCfg) (clk : Clock) (syns : List Syn)
    (tensors : List Payload) (prio : CalcRes Unit)
    (cb : CalcRes ComputeOut) : CallResult :=
  if tensors.length = 0 then
    uniformResult syns.length .EmptyRequest "Empty Request" clk.tEmpty
      (initIsResponse syns.length) false false
  else if tensors.length < 2 then
    uniformResult syns.length .InvalidRequest
      ("Backward request contains " ++ toString tensors.length ++
        " tensors, expected atleast 2 tensor in the backward call")
      clk.tInvalid (initIsResponse syns.length) false false
  else if tensors.length ≠ 2 * syns.length then
    uniformResult syns.length .RequestShapeException
      "Request length doesn\x27t match synape length." clk.tShape
      (initIsResponse syns.length) false false
  else if shouldReturn ((decB clk syns tensors).map (·.code)) then
    stateResult (decB clk syns tensors) []
      (firstCode ((decB clk syns tensors).map (·.code)))
      (initIsResponse syns.length) true false false
  else
    if cfg.priorityMode then
      match prio with
      | .ok _ =>
          if shouldReturn ((decB clk syns tensors).map (·.code)) then
            stateResult (decB clk syns tensors) []
              (firstCode ((decB clk syns tensors).map (·.code)))
              (List.replicate syns.length true) true true false
          else
            stateResult (setFinalTimesB clk 0 (decB clk syns tensors)) []
              .Success (List.replicate syns.length true) true true false
      | .timeoutE =>
          uniformResult syns.length .Timeout "Request reached timeout"
            clk.tTimeout (List.replicate syns.length true) true false
      | .exnE m =>
          uniformResult syns.length .UnknownException m clk.tUnknown
            (List.replicate syns.length true) true false
    else
      match cb with
      | .timeoutE =>
          uniformResult syns.length .Timeout "Request reached timeout"
            clk.tTimeout (List.replicate syns.length true) true true
      | .exnE m =>
          uniformResult syns.length .UnknownException m clk.tUnknown
            (List.replicate syns.length true) true true
      | .ok (_, bCodes, bMsgs) =>
          if bCodes.length < syns.length ∨ bMsgs.length < syns.length then
            uniformResult syns.length .UnknownException "list index out of range"
              clk.tUnknown (List.replicate syns.length true) true true
          else
            if shouldReturn
                ((fillStates (decB clk syns tensors) bCodes bMsgs).map (·.code)) then
              stateResult (fillStates (decB clk syns tensors) bCodes bMsgs) []
                (firstCode ((fillStates (decB clk syns tensors) bCodes bMsgs).map (·.code)))
                (List.replicate syns.length true) true true false
            else
              stateResult
                (setFinalTimesB clk 0 (fillStates (decB clk syns tensors) bCodes bMsgs)) []
                .Success (List.replicate syns.length true) true true false

/-- A synapse whose codec calls all succeed. -/
def synTriv : Syn where
  decodeF := fun _ => .ok 0
  decodeB := fun _ _ => .ok 0
  encodeF := fun _ _ => .ok 0
  emptyP := 0

/-- A synapse whose forward deserialization always raises a generic
exception. -/
def synDecodeFail : Syn where
  decodeF := fun _ => .otherErr "bad tensor"
  decodeB := fun _ _ => .otherErr "bad tensor"
  encodeF := fun _ _ => .ok 0
  emptyP := 0

/-- A clock reading zero at every site. -/
def clkZero : Clock where
  tEmpty := 0
  tInvalid := 0
  tShape := 0
  tTimeout := 0
  tUnknown := 0
  tDecode := fun _ => 0
  tEncode := fun _ => 0
  tFinal := fun _ => 0

/-- Direct mode configuration: no priority function attached. -/
def cfgDirect : AxonCfg := { priorityMode := false }

/-- Priority mode configuration: a priority function is attached. -/
def cfgPriority : AxonCfg := { priorityMode := true }

/-- A priority function invocation that returns normally. -/
def prioOk : CalcRes Unit := .ok ()

/-- A callback invocation returning empty result lists. -/
def cbNil : CalcRes ComputeOut := .ok ([], [], [])

/-- The aggregate reporting invariant of a call result: the overall code
is `Success` exactly when at least one synapse outcome is `Success`, and
when every synapse outcome is non-`Success` the overall code is the code
of the first synapse in sequence order. -/
def aggInvariant (r : CallResult) : Prop :=
  (r.code = ReturnCode.Success ↔ ReturnCode.Success ∈ r.codes) ∧
  (r.codes ≠ [] → ReturnCode.Success ∉ r.codes →
    r.code = r.codes.headD ReturnCode.Success)

/-- `check_if_should_return` returns true exactly when no code is
`Success`. -/
theorem shouldReturn_iff (l : List ReturnCode) :
    shouldReturn l = true ↔ ∀ c ∈ l, c ≠ ReturnCode.Success := by
  simp [shouldReturn]

/-- `check_if_should_return` returns false exactly when some code is
`Success`. -/
theorem shouldReturn_false_iff (l : List ReturnCode) :
    shouldReturn l = false ↔ ReturnCode.Success ∈ l := by
  rw [← Bool.not_eq_true, not_iff_comm, shouldReturn_iff]
  constructor
  · intro h c hc
    exact fun hcs => h (hcs ▸ hc)
  · intro h hs
    exact h ReturnCode.Success hs rfl

theorem length_initState (n : Nat) : (initState n).length = n := by
  simp [initState]

theorem length_initIsResponse (n : Nat) : (initIsResponse n).length = n := by
  simp [initIsResponse]

/-- Every initial entry is `Success`, message `"Success"`, call time `0`,
with no deserialized input. -/
theorem initState_entries (n : Nat) :
    ∀ s ∈ initState n, s.code = ReturnCode.Success ∧ s.message = "Success" ∧
      s.callTime = 0 ∧ s.input = none := by
  intro s hs
  have := List.eq_of_mem_replicate hs
  subst this
  exact ⟨rfl, rfl, rfl, rfl⟩

theorem length_decodeStageF (clk : Clock) :
    ∀ (i : Nat) (is : List SynState) (ss : List Syn) (ts : List Payload),
      (decodeStageF clk i is ss ts).length =
        min is.length (min ss.length ts.length)
  | _, [], _, _ => by simp [decodeStageF]
  | _, _ :: _, [], _ => by simp [decodeStageF]
  | _, _ :: _, _ :: _, [] => by simp [decodeStageF]
  | i, _ :: is, _ :: ss, _ :: ts => by
      simp [decodeStageF, length_decodeStageF clk (i + 1) is ss ts]
      omega

theorem length_decodeStageB (clk : Clock) :
    ∀ (i : Nat) (is : List SynState) (ss : List Syn) (ts gs : List Payload),
      (decodeStageB clk i is ss ts gs).length =
        min is.length (min ss.length (min ts.length gs.length))
  | _, [], _, _, _ => by simp [decodeStageB]
  | _, _ :: _, [], _, _ => by simp [decodeStageB]
  | _, _ :: _, _ :: _, [], _ => by simp [decodeStageB]
  | _, _ :: _, _ :: _, _ :: _, [] => by simp [decodeStageB]
  | i, _ :: is, _ :: ss, _ :: ts, _ :: gs => by
      simp [decodeStageB, length_decodeStageB clk (i + 1) is ss ts gs]
      omega

theorem length_fillStates :
    ∀ (sts : List SynState) (cs : List ReturnCode) (ms : List String),
      (fillStates sts cs ms).length =
        min sts.length (min cs.length ms.length)
  | [], _, _ => by simp [fillStates]
  | _ :: _, [], _ => by simp [fillStates]
  | _ :: _, _ :: _, [] => by simp [fillStates]
  | _ :: sts, _ :: cs, _ :: ms => by
      simp [fillStates, length_fillStates sts cs ms]
      omega

theorem length_encodeStage (clk : Clock) :
    ∀ (i : Nat) (ss : List Syn) (sts : List SynState)
      (outs : List (Option Payload)),
      (encodeStage clk i ss sts outs).length = min ss.length sts.length
  | _, [], _, _ => by simp [encodeStage]
  | _, _ :: _, [], _ => by simp [encodeStage]
  | i, _ :: ss, _ :: sts, outs => by
      simp [encodeStage, length_encodeStage clk (i + 1) ss sts outs.tail]
      omega

theorem length_setFinalTimes (clk : Clock) :
    ∀ (i : Nat) (es : List (SynState × Payload)),
      (setFinalTimes clk i es).length = es.length
  | _, [] => by simp [setFinalTimes]
  | i, _ :: es => by
      simp [setFinalTimes, length_setFinalTimes clk (i + 1) es]

theorem length_setFinalTimesB (clk : Clock) :
    ∀ (i : Nat) (sts : List SynState),
      (setFinalTimesB clk i sts).length = sts.length
  | _, [] => by simp [setFinalTimesB]
  | i, _ :: sts => by
      simp [setFinalTimesB, length_setFinalTimesB clk (i + 1) sts]

/-- The final call-time loop never changes codes. -/
theorem setFinalTimes_map_code (clk : Clock) :
    ∀ (i : Nat) (es : List (SynState × Payload)),
      (setFinalTimes clk i es).map (·.1.code) = es.map (·.1.code)
  | _, [] => by simp [setFinalTimes]
  | i, e :: es => by
      by_cases h : e.1.code = ReturnCode.Success <;>
        simp [setFinalTimes, h, setFinalTimes_map_code clk (i + 1) es]

/-- The backward final call-time loop never changes codes. -/
theorem setFinalTimesB_map_code (clk : Clock) :
    ∀ (i : Nat) (sts : List SynState),
      (setFinalTimesB clk i sts).map (·.code) = sts.map (·.code)
  | _, [] => by simp [setFinalTimesB]
  | i, s :: sts => by
      by_cases h : s.code = ReturnCode.Success <;>
        simp [setFinalTimesB, h, setFinalTimesB_map_code clk (i + 1) sts]

/-- The backward final call-time loop never changes messages. -/
theorem setFinalTimesB_map_message (clk : Clock) :
    ∀ (i : Nat) (sts : List SynState),
      (setFinalTimesB clk i sts).map (·.message) = sts.map (·.message)
  | _, [] => by simp [setFinalTimesB]
  | i, s :: sts => by
      by_cases h : s.code = ReturnCode.Success <;>
        simp [setFinalTimesB, h, setFinalTimesB_map_message clk (i + 1) sts]

/-- The fill loop replaces the code array with the callback codes
(truncated at the synapse count). -/
theorem fillStates_map_code :
    ∀ (sts : List SynState) (cs : List ReturnCode) (ms : List String),
      sts.length ≤ cs.length → sts.length ≤ ms.length →
      (fillStates sts cs ms).map (·.code) = cs.take sts.length
  | [], _, _, _, _ => by simp [fillStates]
  | s :: sts, [], ms, h, _ => by simp at h
  | s :: sts, c :: cs, [], _, h => by simp at h
  | s :: sts, c :: cs, m :: ms, h1, h2 => by
      simp [fillStates]
      exact fillStates_map_code sts cs ms (by simpa using h1) (by simpa using h2)

/-- A synapse already marked failed passes through the serialization loop
unchanged apart from receiving the empty response. -/
theorem encodeStage_map_fst_of_no_success (clk : Clock) :
    ∀ (i : Nat) (ss : List Syn) (sts : List SynState)
      (outs : List (Option Payload)),
      sts.length ≤ ss.length →
      (∀ s ∈ sts, s.code ≠ ReturnCode.Success) →
      (encodeStage clk i ss sts outs).map (·.1) = sts
  | _, [], [], _, _, _ => by simp [encodeStage]
  | _, [], s :: sts, _, h, _ => by simp at h
  | _, _ :: _, [], _, _, _ => by simp [encodeStage]
  | i, syn :: ss, s :: sts, outs, h, hall => by
      have hs : s.code ≠ ReturnCode.Success := hall s (by simp)
      simp [encodeStage, encodeOne, hs,
        encodeStage_map_fst_of_no_success clk (i + 1) ss sts outs.tail
          (by simpa using h) (fun x hx => hall x (by simp [hx]))]

/-- When no synapse is still marked `Success`, the serialization loop
never invokes `serialize_forward_response_tensor`. -/
theorem serializeHappens_eq_false :
    ∀ (sts : List SynState) (outs : List (Option Payload)),
      (∀ s ∈ sts, s.code ≠ ReturnCode.Success) →
      serializeHappens sts outs = false
  | [], _, _ => by simp [serializeHappens]
  | s :: sts, outs, hall => by
      have hs : s.code ≠ ReturnCode.Success := hall s (by simp)
      simp [serializeHappens, hs,
        serializeHappens_eq_false sts outs.tail
          (fun x hx => hall x (by simp [hx]))]

/-- A backward-decoded synapse that is still `Success` kept its initial
message. -/
theorem decodeStageB_message_of_success (clk : Clock) :
    ∀ (i : Nat) (is : List SynState) (ss : List Syn) (ts gs : List Payload),
      (∀ s0 ∈ is, s0.message = "Success") →
      ∀ s ∈ decodeStageB clk i is ss ts gs,
        s.code = ReturnCode.Success → s.message = "Success"
  | _, [], _, _, _, _ => by simp [decodeStageB]
  | _, _ :: _, [], _, _, _ => by simp [decodeStageB]
  | _, _ :: _, _ :: _, [], _, _ => by simp [decodeStageB]
  | _, _ :: _, _ :: _, _ :: _, [], _ => by simp [decodeStageB]
  | i, s0 :: is, syn :: ss, t :: ts, g :: gs, hmsg => by
      intro s hs hcode
      simp [decodeStageB] at hs
      rcases hs with hs | hs
      · subst hs
        unfold decodeOneB at hcode ⊢
        rcases hF : syn.decodeF t with v | m | m
        · rcases hB : syn.decodeB v g with w | m | m
          · simp [hF, hB]
            exact hmsg s0 (by simp)
          · simp [hF, hB] at hcode
          · simp [hF, hB] at hcode
        · simp [hF] at hcode
        · simp [hF] at hcode
      · exact decodeStageB_message_of_success clk (i + 1) is ss ts gs
          (fun x hx => hmsg x (by simp [hx])) s hs hcode

theorem headD_replicate (n : Nat) (c d : ReturnCode) (h : n ≠ 0) :
    (List.replicate n c).headD d = c := by
  cases n with
  | zero => exact absurd rfl h
  | succ k => simp [List.replicate_succ]

theorem length_decF (clk : Clock) (syns : List Syn) (tensors : List Payload)
    (h : tensors.length = syns.length) :
    (decF clk syns tensors).length = syns.length := by
  simp [decF, length_decodeStageF, length_initState, h]

theorem length_decB (clk : Clock) (syns : List Syn) (tensors : List Payload)
    (h : tensors.length = 2 * syns.length) :
    (decB clk syns tensors).length = syns.length := by
  simp [decB, length_decodeStageB, length_initState, h]
  omega

theorem length_encF (clk : Clock) (syns : List Syn) (tensors : List Payload)
    (fCodes : List ReturnCode) (fMsgs : List String)
    (outs : List (Option Payload)) (h : tensors.length = syns.length)
    (h1 : syns.length ≤ fCodes.length) (h2 : syns.length ≤ fMsgs.length) :
    (encF clk syns tensors fCodes fMsgs outs).length = syns.length := by
  simp [encF, length_encodeStage, length_fillStates, length_decF clk syns tensors h]
  omega

theorem axonForward_empty (cfg : AxonCfg) (clk : Clock) (syns : List Syn)
    (tensors : List Payload) (prio : CalcRes Unit) (cb : CalcRes ComputeOut)
    (h : tensors.length = 0) :
    axonForward cfg clk syns tensors prio cb =
      uniformResult syns.length .EmptyRequest
        ("Forward request contains " ++ toString tensors.length ++
          " tensors, expected 1 tensor in the forward call")
        clk.tEmpty (initIsResponse syns.length) false false := by
  unfold axonForward
  rw [if_pos h]

theorem axonForward_shape (cfg : AxonCfg) (clk : Clock) (syns : List Syn)
    (tensors : List Payload) (prio : CalcRes Unit) (cb : CalcRes ComputeOut)
    (h0 : tensors.length ≠ 0) (h : tensors.length ≠ syns.length) :
    axonForward cfg clk syns tensors prio cb =
      uniformResult syns.length .RequestShapeException
        "Request length doesn\x27t match synape length." clk.tShape
        (initIsResponse syns.length) false false := by
  unfold axonForward
  rw [if_neg h0, if_pos h]

theorem axonForward_decodeFail (cfg : AxonCfg) (clk : Clock) (syns : List Syn)
    (tensors : List Payload) (prio : CalcRes Unit) (cb : CalcRes ComputeOut)
    (h0 : tensors.length ≠ 0) (hlen : tensors.length = syns.length)
    (hdec : shouldReturn ((decF clk syns tensors).map (·.code)) = true) :
    axonForward cfg clk syns tensors prio cb =
      stateResult (decF clk syns tensors) []
        (firstCode ((decF clk syns tensors).map (·.code)))
        (initIsResponse syns.length) true false false := by
  unfold axonForward
  rw [if_neg h0, if_neg (not_not_intro hlen), if_pos hdec]

theorem axonForward_timeout (cfg : AxonCfg) (clk : Clock) (syns : List Syn)
    (tensors : List Payload) (prio : CalcRes Unit) (cb : CalcRes ComputeOut)
    (h0 : tensors.length ≠ 0) (hlen : tensors.length = syns.length)
    (hdec : shouldReturn ((decF clk syns tensors).map (·.code)) = false)
    (hc : computeOutcome cfg prio cb = .timeoutE) :
    axonForward cfg clk syns tensors prio cb =
      uniformResult syns.length .Timeout "Request reached timeout"
        clk.tTimeout (initIsResponse syns.length) true
        (computeSubmitted cfg prio) := by
  unfold axonForward
  rw [if_neg h0, if_neg (not_not_intro hlen), if_neg (by simp [hdec]), hc]

theorem axonForward_exn (cfg : AxonCfg) (clk : Clock) (syns : List Syn)
    (tensors : List Payload) (prio : CalcRes Unit) (cb : CalcRes ComputeOut)
    (m : String) (h0 : tensors.length ≠ 0) (hlen : tensors.length = syns.length)
    (hdec : shouldReturn ((decF clk syns tensors).map (·.code)) = false)
    (hc : computeOutcome cfg prio cb = .exnE m) :
    axonForward cfg clk syns tensors prio cb =
      uniformResult syns.length .UnknownException m clk.tUnknown
        (initIsResponse syns.length) true (computeSubmitted cfg prio) := by
  unfold axonForward
  rw [if_neg h0, if_neg (not_not_intro hlen), if_neg (by simp [hdec]), hc]

theorem axonForward_indexErr (cfg : AxonCfg) (clk : Clock) (syns : List Syn)
    (tensors : List Payload) (prio : CalcRes Unit) (cb : CalcRes ComputeOut)
    (outs : List (Option Payload)) (fCodes : List ReturnCode)
    (fMsgs : List String)
    (h0 : tensors.length ≠ 0) (hlen : tensors.length = syns.length)
    (hdec : shouldReturn ((decF clk syns tensors).map (·.code)) = false)
    (hc : computeOutcome cfg prio cb = .ok (outs, fCodes, fMsgs))
    (hbad : fCodes.length < syns.length ∨ fMsgs.length < syns.length) :
    axonForward cfg clk syns tensors prio cb =
      uniformResult syns.length .UnknownException "list index out of range"
        clk.tUnknown (List.replicate syns.length true) true true := by
  unfold axonForward
  rw [if_neg h0, if_neg (not_not_intro hlen), if_neg (by simp [hdec])]
  simp only [hc]
  rw [if_pos hbad]

theorem axonForward_encodeShort (cfg : AxonCfg) (clk : Clock) (syns : List Syn)
    (tensors : List Payload) (prio : CalcRes Unit) (cb : CalcRes ComputeOut)
    (outs : List (Option Payload)) (fCodes : List ReturnCode)
    (fMsgs : List String)
    (h0 : tensors.length ≠ 0) (hlen : tensors.length = syns.length)
    (hdec : shouldReturn ((decF clk syns tensors).map (·.code)) = false)
    (hc : computeOutcome cfg prio cb = .ok (outs, fCodes, fMsgs))
    (hf1 : syns.length ≤ fCodes.length) (hf2 : syns.length ≤ fMsgs.length)
    (henc : shouldReturn ((encF clk syns tensors fCodes fMsgs outs).map (·.1.code)) = true) :
    axonForward cfg clk syns tensors prio cb =
      stateResult ((encF clk syns tensors fCodes fMsgs outs).map (·.1)) []
        (firstCode ((encF clk syns tensors fCodes fMsgs outs).map (·.1.code)))
        (List.replicate syns.length true) true true
        (serializeHappens (fillStates (decF clk syns tensors) fCodes fMsgs) outs) := by
  unfold axonForward
  rw [if_neg h0, if_neg (not_not_intro hlen), if_neg (by simp [hdec])]
  simp only [hc]
  rw [if_neg (by omega), if_pos henc]

theorem axonForward_final (cfg : AxonCfg) (clk : Clock) (syns : List Syn)
    (tensors : List Payload) (prio : CalcRes Unit) (cb : CalcRes ComputeOut)
    (outs : List (Option Payload)) (fCodes : List ReturnCode)
    (fMsgs : List String)
    (h0 : tensors.length ≠ 0) (hlen : tensors.length = syns.length)
    (hdec : shouldReturn ((decF clk syns tensors).map (·.code)) = false)
    (hc : computeOutcome cfg prio cb = .ok (outs, fCodes, fMsgs))
    (hf1 : syns.length ≤ fCodes.length) (hf2 : syns.length ≤ fMsgs.length)
    (henc : shouldReturn ((encF clk syns tensors fCodes fMsgs outs).map (·.1.code)) = false) :
    axonForward cfg clk syns tensors prio cb =
      stateResult
        ((setFinalTimes clk 0 (encF clk syns tensors fCodes fMsgs outs)).map (·.1))
        ((setFinalTimes clk 0 (encF clk syns tensors fCodes fMsgs outs)).map (·.2))
        .Success (List.replicate syns.length true) true true
        (serializeHappens (fillStates (decF clk syns tensors) fCodes fMsgs) outs) := by
  unfold axonForward
  rw [if_neg h0, if_neg (not_not_intro hlen), if_neg (by simp [hdec])]
  simp only [hc]
  rw [if_neg (by omega), if_neg (by simp [henc])]

theorem axonBackward_empty (cfg : AxonCfg) (clk : Clock) (syns : List Syn)
    (tensors : List Payload) (prio : CalcRes Unit) (cb : CalcRes ComputeOut)
    (h : tensors.length = 0) :
    axonBackward cfg clk syns tensors prio cb =
      uniformResult syns.length .EmptyRequest "Empty Request" clk.tEmpty
        (initIsResponse syns.length) false false := by
  unfold axonBackward
  rw [if_pos h]

theorem axonBackward_invalid (cfg : AxonCfg) (clk : Clock) (syns : List Syn)
    (tensors : List Payload) (prio : CalcRes Unit) (cb : CalcRes ComputeOut)
    (h0 : tensors.length ≠ 0) (h : tensors.length < 2) :
    axonBackward cfg clk syns tensors prio cb =
      uniformResult syns.length .InvalidRequest
        ("Backward request contains " ++ toString tensors.length ++
          " tensors, expected atleast 2 tensor in the backward call")
        clk.tInvalid (initIsResponse syns.length) false false := by
  unfold axonBackward
  rw [if_neg h0, if_pos h]

theorem axonBackward_shape (cfg : AxonCfg) (clk : Clock) (syns : List Syn)
    (tensors : List Payload) (prio : CalcRes Unit) (cb : CalcRes ComputeOut)
    (h0 : tensors.length ≠ 0) (h1 : ¬ tensors.length < 2)
    (h : tensors.length ≠ 2 * syns.length) :
    axonBackward cfg clk syns tensors prio cb =
      uniformResult syns.length .RequestShapeException
        "Request length doesn\x27t match synape length." clk.tShape
        (initIsResponse syns.length) false false := by
  unfold axonBackward
  rw [if_neg h0, if_neg h1, if_pos h]

theorem axonBackward_decodeFail (cfg : AxonCfg) (clk : Clock) (syns : List Syn)
    (tensors : List Payload) (prio : CalcRes Unit) (cb : CalcRes ComputeOut)
    (h0 : tensors.length ≠ 0) (h1 : ¬ tensors.length < 2)
    (hlen : tensors.length = 2 * syns.length)
    (hdec : shouldReturn ((decB clk syns tensors).map (·.code)) = true) :
    axonBackward cfg clk syns tensors prio cb =
      stateResult (decB clk syns tensors) []
        (firstCode ((decB clk syns tensors).map (·.code)))
        (initIsResponse syns.length) true false false := by
  unfold axonBackward
  rw [if_neg h0, if_neg h1, if_neg (not_not_intro hlen), if_pos hdec]

theorem axonBackward_prioSubmit (cfg : AxonCfg) (clk : Clock) (syns : List Syn)
    (tensors : List Payload) (prio : CalcRes Unit) (cb : CalcRes ComputeOut)
    (h0 : tensors.length ≠ 0) (h1 : ¬ tensors.length < 2)
    (hlen : tensors.length = 2 * syns.length)
    (hdec : shouldReturn ((decB clk syns tensors).map (·.code)) = false)
    (hp : cfg.priorityMode = true) (hprio : prio = .ok ()) :
    axonBackward cfg clk syns tensors prio cb =
      stateResult (setFinalTimesB clk 0 (decB clk syns tensors)) []
        .Success (List.replicate syns.length true) true true false := by
  unfold axonBackward
  rw [if_neg h0, if_neg h1, if_neg (not_not_intro hlen),
    if_neg (by simp [hdec]), if_pos hp]
  simp only [hprio]
  rw [if_neg (by simp [hdec])]

theorem axonBackward_prioTimeout (cfg : AxonCfg) (clk : Clock) (syns : List Syn)
    (tensors : List Payload) (prio : CalcRes Unit) (cb : CalcRes ComputeOut)
    (h0 : tensors.length ≠ 0) (h1 : ¬ tensors.length < 2)
    (hlen : tensors.length = 2 * syns.length)
    (hdec : shouldReturn ((decB clk syns tensors).map (·.code)) = false)
    (hp : cfg.priorityMode = true) (hprio : prio = .timeoutE) :
    axonBackward cfg clk syns tensors prio cb =
      uniformResult syns.length .Timeout "Request reached timeout"
        clk.tTimeout (List.replicate syns.length true) true false := by
  unfold axonBackward
  rw [if_neg h0, if_neg h1, if_neg (not_not_intro hlen),
    if_neg (by simp [hdec]), if_pos hp]
  simp only [hprio]

theorem axonBackward_prioExn (cfg : AxonCfg) (clk : Clock) (syns : List Syn)
    (tensors : List Payload) (prio : CalcRes Unit) (cb : CalcRes ComputeOut)
    (m : String) (h0 : tensors.length ≠ 0) (h1 : ¬ tensors.length < 2)
    (hlen : tensors.length = 2 * syns.length)
    (hdec : shouldReturn ((decB clk syns tensors).map (·.code)) = false)
    (hp : cfg.priorityMode = true) (hprio : prio = .exnE m) :
    axonBackward cfg clk syns tensors prio cb =
      uniformResult syns.length .UnknownException m clk.tUnknown
        (List.replicate syns.length true) true false := by
  unfold axonBackward
  rw [if_neg h0, if_neg h1, if_neg (not_not_intro hlen),
    if_neg (by simp [hdec]), if_pos hp]
  simp only [hprio]

theorem axonBackward_directTimeout (cfg : AxonCfg) (clk : Clock)
    (syns : List Syn) (tensors : List Payload) (prio : CalcRes Unit)
    (cb : CalcRes ComputeOut)
    (h0 : tensors.length ≠ 0) (h1 : ¬ tensors.length < 2)
    (hlen : tensors.length = 2 * syns.length)
    (hdec : shouldReturn ((decB clk syns tensors).map (·.code)) = false)
    (hp : cfg.priorityMode = false) (hcb : cb = .timeoutE) :
    axonBackward cfg clk syns tensors prio cb =
      uniformResult syns.length .Timeout "Request reached timeout"
        clk.tTimeout (List.replicate syns.length true) true true := by
  unfold axonBackward
  rw [if_neg h0, if_neg h1, if_neg (not_not_intro hlen),
    if_neg (by simp [hdec]), if_neg (by simp [hp])]
  simp only [hcb]

theorem axonBackward_directExn (cfg : AxonCfg) (clk : Clock)
    (syns : List Syn) (tensors : List Payload) (prio : CalcRes Unit)
    (cb : CalcRes ComputeOut) (m : String)
    (h0 : tensors.length ≠ 0) (h1 : ¬ tensors.length < 2)
    (hlen : tensors.length = 2 * syns.length)
    (hdec : shouldReturn ((decB clk syns tensors).map (·.code)) = false)
    (hp : cfg.priorityMode = false) (hcb : cb = .exnE m) :
    axonBackward cfg clk syns tensors prio cb =
      uniformResult syns.length .UnknownException m clk.tUnknown
        (List.replicate syns.length true) true true := by
  unfold axonBackward
  rw [if_neg h0, if_neg h1, if_neg (not_not_intro hlen),
    if_neg (by simp [hdec]), if_neg (by simp [hp])]
  simp only [hcb]

theorem axonBackward_directIndexErr (cfg : AxonCfg) (clk : Clock)
    (syns : List Syn) (tensors : List Payload) (prio : CalcRes Unit)
    (cb : CalcRes ComputeOut) (outs : List (Option Payload))
    (bCodes : List ReturnCode) (bMsgs : List String)
    (h0 : tensors.length ≠ 0) (h1 : ¬ tensors.length < 2)
    (hlen : tensors.length = 2 * syns.length)
    (hdec : shouldReturn ((decB clk syns tensors).map (·.code)) = false)
    (hp : cfg.priorityMode = false) (hcb : cb = .ok (outs, bCodes, bMsgs))
    (hbad : bCodes.length < syns.length ∨ bMsgs.length < syns.length) :
    axonBackward cfg clk syns tensors prio cb =
      uniformResult syns.length .UnknownException "list index out of range"
        clk.tUnknown (List.replicate syns.length true) true true := by
  unfold axonBackward
  rw [if_neg h0, if_neg h1, if_neg (not_not_intro hlen),
    if_neg (by simp [hdec]), if_neg (by simp [hp])]
  simp only [hcb]
  rw [if_pos hbad]

theorem axonBackward_directShort (cfg : AxonCfg) (clk : Clock)
    (syns : List Syn) (tensors : List Payload) (prio : CalcRes Unit)
    (cb : CalcRes ComputeOut) (outs : List (Option Payload))
    (bCodes : List ReturnCode) (bMsgs : List String)
    (h0 : tensors.length ≠ 0) (h1 : ¬ tensors.length < 2)
    (hlen : tensors.length = 2 * syns.length)
    (hdec : shouldReturn ((decB clk syns tensors).map (·.code)) = false)
    (hp : cfg.priorityMode = false) (hcb : cb = .ok (outs, bCodes, bMsgs))
    (hf1 : syns.length ≤ bCodes.length) (hf2 : syns.length ≤ bMsgs.length)
    (hfill : shouldReturn
      ((fillStates (decB clk syns tensors) bCodes bMsgs).map (·.code)) = true) :
    axonBackward cfg clk syns tensors prio cb =
      stateResult (fillStates (decB clk syns tensors) bCodes bMsgs) []
        (firstCode ((fillStates (decB clk syns tensors) bCodes bMsgs).map (·.code)))
        (List.replicate syns.length true) true true false := by
  unfold axonBackward
  rw [if_neg h0, if_neg h1, if_neg (not_not_intro hlen),
    if_neg (by simp [hdec]), if_neg (by simp [hp])]
  simp only [hcb]
  rw [if_neg (by omega), if_pos hfill]

theorem axonBackward_directFinal (cfg : AxonCfg) (clk : Clock)
    (syns : List Syn) (tensors : List Payload) (prio : CalcRes Unit)
    (cb : CalcRes ComputeOut) (outs : List (Option Payload))
    (bCodes : List ReturnCode) (bMsgs : List String)
    (h0 : tensors.length ≠ 0) (h1 : ¬ tensors.length < 2)
    (hlen : tensors.length = 2 * syns.length)
    (hdec : shouldReturn ((decB clk syns tensors).map (·.code)) = false)
    (hp : cfg.priorityMode = false) (hcb : cb = .ok (outs, bCodes, bMsgs))
    (hf1 : syns.length ≤ bCodes.length) (hf2 : syns.length ≤ bMsgs.length)
    (hfill : shouldReturn
      ((fillStates (decB clk syns tensors) bCodes bMsgs).map (·.code)) = false) :
    axonBackward cfg clk syns tensors prio cb =
      stateResult
        (setFinalTimesB clk 0 (fillStates (decB clk syns tensors) bCodes bMsgs)) []
        .Success (List.replicate syns.length true) true true false := by
  unfold axonBackward
  rw [if_neg h0, if_neg h1, if_neg (not_not_intro hlen),
    if_neg (by simp [hdec]), if_neg (by simp [hp])]
  simp only [hcb]
  rw [if_neg (by omega), if_neg (by simp [hfill])]

/-- C6: for every call (forward or backward) whose payload sequence is
empty, the overall return code is `EmptyRequest`, every synapse outcome
is set to `EmptyRequest` with the same message and elapsed time, the
returned payload sequence is empty, and neither the decode stage nor the
compute stage runs. -/
theorem c6_empty_request (cfg : AxonCfg) (clk : Clock) (syns : List Syn)
    (prio : CalcRes Unit) (cb : CalcRes ComputeOut) :
    ((axonForward cfg clk syns [] prio cb).code = .EmptyRequest ∧
      (axonForward cfg clk syns [] prio cb).codes =
        List.replicate syns.length .EmptyRequest ∧
      (∃ msg, (axonForward cfg clk syns [] prio cb).messages =
        List.replicate syns.length msg) ∧
      (∃ t, (axonForward cfg clk syns [] prio cb).callTimes =
        List.replicate syns.length t) ∧
      (axonForward cfg clk syns [] prio cb).tensors = [] ∧
      (axonForward cfg clk syns [] prio cb).decodeInvoked = false ∧
      (axonForward cfg clk syns [] prio cb).computeInvoked = false) ∧
    ((axonBackward cfg clk syns [] prio cb).code = .EmptyRequest ∧
      (axonBackward cfg clk syns [] prio cb).codes =
        List.replicate syns.length .EmptyRequest ∧
      (∃ msg, (axonBackward cfg clk syns [] prio cb).messages =
        List.replicate syns.length msg) ∧
      (∃ t, (axonBackward cfg clk syns [] prio cb).callTimes =
        List.replicate syns.length t) ∧
      (axonBackward cfg clk syns [] prio cb).tensors = [] ∧
      (axonBackward cfg clk syns [] prio cb).decodeInvoked = false ∧
      (axonBackward cfg clk syns [] prio cb).computeInvoked = false) := by
  rw [axonForward_empty cfg clk syns [] prio cb rfl,
    axonBackward_empty cfg clk syns [] prio cb rfl]
  refine ⟨⟨rfl, rfl, ⟨_, rfl⟩, ⟨clk.tEmpty, rfl⟩, rfl, rfl, rfl⟩,
    ⟨rfl, rfl, ⟨_, rfl⟩, ⟨clk.tEmpty, rfl⟩, rfl, rfl, rfl⟩⟩

/-- C7 counterexample: a forward call whose payload count (0) differs
from its synapse count (1) does not return `RequestShapeException` — the
empty-request check fires first and the code is `EmptyRequest`. -/
theorem c7_counterexample :
    ([] : List Payload).length ≠ [synTriv].length ∧
    (axonForward cfgDirect clkZero [synTriv] [] prioOk cbNil).code =
      ReturnCode.EmptyRequest ∧
    (axonForward cfgDirect clkZero [synTriv] [] prioOk cbNil).code ≠
      ReturnCode.RequestShapeException := by
  refine ⟨by decide, ?_, ?_⟩ <;>
    rw [axonForward_empty cfgDirect clkZero [synTriv] [] prioOk cbNil rfl] <;>
    decide

/-- C7 (amended): for every forward call with a nonempty payload sequence
whose payload count differs from its synapse count, the overall return
code is `RequestShapeException`, every synapse outcome carries that code,
and the decode stage never runs. -/
theorem c7_forward_shape_mismatch (cfg : AxonCfg) (clk : Clock)
    (syns : List Syn) (tensors : List Payload) (prio : CalcRes Unit)
    (cb : CalcRes ComputeOut) (h0 : tensors.length ≠ 0)
    (h : tensors.length ≠ syns.length) :
    (axonForward cfg clk syns tensors prio cb).code =
      ReturnCode.RequestShapeException ∧
    (axonForward cfg clk syns tensors prio cb).codes =
      List.replicate syns.length ReturnCode.RequestShapeException ∧
    (axonForward cfg clk syns tensors prio cb).decodeInvoked = false ∧
    (axonForward cfg clk syns tensors prio cb).tensors = [] := by
  rw [axonForward_shape cfg clk syns tensors prio cb h0 h]
  exact ⟨rfl, rfl, rfl, rfl⟩

/-- C7 witness: the amended claim at a concrete mismatching forward
call. -/
theorem c7_forward_shape_mismatch_witness :
    (axonForward cfgDirect clkZero [synTriv] [0, 0] prioOk cbNil).code =
      ReturnCode.RequestShapeException ∧
    (axonForward cfgDirect clkZero [synTriv] [0, 0] prioOk cbNil).codes =
      List.replicate 1 ReturnCode.RequestShapeException ∧
    (axonForward cfgDirect clkZero [synTriv] [0, 0] prioOk cbNil).decodeInvoked = false ∧
    (axonForward cfgDirect clkZero [synTriv] [0, 0] prioOk cbNil).tensors = [] :=
  c7_forward_shape_mismatch cfgDirect clkZero [synTriv] [0, 0] prioOk cbNil
    (by decide) (by decide)

/-- C8 counterexample: a backward call with payload count 0 (which is
less than 2) does not return `InvalidRequest` — the empty-request check
fires first and the code is `EmptyRequest`. -/
theorem c8_counterexample :
    ([] : List Payload).length < 2 ∧
    (axonBackward cfgDirect clkZero [synTriv] [] prioOk cbNil).code =
      ReturnCode.EmptyRequest ∧
    (axonBackward cfgDirect clkZero [synTriv] [] prioOk cbNil).code ≠
      ReturnCode.InvalidRequest := by
  refine ⟨by decide, ?_, ?_⟩ <;>
    rw [axonBackward_empty cfgDirect clkZero [synTriv] [] prioOk cbNil rfl] <;>
    decide

/-- C8 (amended): for every backward call with a nonempty payload
sequence, if the payload count is less than 2 the overall return code is
`InvalidRequest` for all synapses; if the payload count is at least 2 but
differs from 2 times the synapse count, the overall return code is
`RequestShapeException` for all synapses; in both cases the pipeline
terminates before decoding. -/
theorem c8_backward_validation (cfg : AxonCfg) (clk : Clock)
    (syns : List Syn) (tensors : List Payload) (prio : CalcRes Unit)
    (cb : CalcRes ComputeOut) (h0 : tensors.length ≠ 0) :
    (tensors.length < 2 →
      (axonBackward cfg clk syns tensors prio cb).code =
        ReturnCode.InvalidRequest ∧
      (axonBackward cfg clk syns tensors prio cb).codes =
        List.replicate syns.length ReturnCode.InvalidRequest ∧
      (axonBackward cfg clk syns tensors prio cb).decodeInvoked = false) ∧
    (2 ≤ tensors.length → tensors.length ≠ 2 * syns.length →
      (axonBackward cfg clk syns tensors prio cb).code =
        ReturnCode.RequestShapeException ∧
      (axonBackward cfg clk syns tensors prio cb).codes =
        List.replicate syns.length ReturnCode.RequestShapeException ∧
      (axonBackward cfg clk syns tensors prio cb).decodeInvoked = false) := by
  constructor
  · intro h
    rw [axonBackward_invalid cfg clk syns tensors prio cb h0 h]
    exact ⟨rfl, rfl, rfl⟩
  · intro h2 h
    rw [axonBackward_shape cfg clk syns tensors prio cb h0 (by omega) h]
    exact ⟨rfl, rfl, rfl⟩

/-- C8 witness: the amended claim at two concrete backward calls, one
with a single payload and one with three payloads for one synapse. -/
theorem c8_backward_validation_witness :
    ((axonBackward cfgDirect clkZero [synTriv] [0] prioOk cbNil).code =
      ReturnCode.InvalidRequest ∧
      (axonBackward cfgDirect clkZero [synTriv] [0] prioOk cbNil).codes =
        List.replicate 1 ReturnCode.InvalidRequest ∧
      (axonBackward cfgDirect clkZero [synTriv] [0] prioOk cbNil).decodeInvoked = false) ∧
    ((axonBackward cfgDirect clkZero [synTriv] [0, 0, 0] prioOk cbNil).code =
      ReturnCode.RequestShapeException ∧
      (axonBackward cfgDirect clkZero [synTriv] [0, 0, 0] prioOk cbNil).codes =
        List.replicate 1 ReturnCode.RequestShapeException ∧
      (axonBackward cfgDirect clkZero [synTriv] [0, 0, 0] prioOk cbNil).decodeInvoked = false) :=
  ⟨(c8_backward_validation cfgDirect clkZero [synTriv] [0] prioOk cbNil
      (by decide)).1 (by decide),
    (c8_backward_validation cfgDirect clkZero [synTriv] [0, 0, 0] prioOk cbNil
      (by decide)).2 (by decide) (by decide)⟩

/-- C9: for every backward call, regardless of validation outcome,
callback result, executor mode, or any exception, the returned response
payload sequence is empty. -/
theorem c9_backward_empty_response (cfg : AxonCfg) (clk : Clock)
    (syns : List Syn) (tensors : List Payload) (prio : CalcRes Unit)
    (cb : CalcRes ComputeOut) :
    (axonBackward cfg clk syns tensors prio cb).tensors = [] := by
  by_cases h0 : tensors.length = 0
  · rw [axonBackward_empty cfg clk syns tensors prio cb h0]; rfl
  by_cases h1 : tensors.length < 2
  · rw [axonBackward_invalid cfg clk syns tensors prio cb h0 h1]; rfl
  by_cases hlen : tensors.length = 2 * syns.length
  case neg => rw [axonBackward_shape cfg clk syns tensors prio cb h0 h1 hlen]; rfl
  by_cases hdec : shouldReturn ((decB clk syns tensors).map (·.code)) = true
  · rw [axonBackward_decodeFail cfg clk syns tensors prio cb h0 h1 hlen hdec]; rfl
  rw [Bool.not_eq_true] at hdec
  by_cases hp : cfg.priorityMode = true
  · cases prio with
    | ok u =>
        cases u
        rw [axonBackward_prioSubmit cfg clk syns tensors _ cb h0 h1 hlen hdec hp rfl]
        rfl
    | timeoutE =>
        rw [axonBackward_prioTimeout cfg clk syns tensors _ cb h0 h1 hlen hdec hp rfl]
        rfl
    | exnE m =>
        rw [axonBackward_prioExn cfg clk syns tensors _ cb m h0 h1 hlen hdec hp rfl]
        rfl
  · rw [Bool.not_eq_true] at hp
    cases cb with
    | timeoutE =>
        rw [axonBackward_directTimeout cfg clk syns tensors prio _ h0 h1 hlen hdec hp rfl]
        rfl
    | exnE m =>
        rw [axonBackward_directExn cfg clk syns tensors prio _ m h0 h1 hlen hdec hp rfl]
        rfl
    | ok v =>
        obtain ⟨outs, bCodes, bMsgs⟩ := v
        by_cases hbad : bCodes.length < syns.length ∨ bMsgs.length < syns.length
        · rw [axonBackward_directIndexErr cfg clk syns tensors prio _ outs bCodes
            bMsgs h0 h1 hlen hdec hp rfl hbad]
          rfl
        · push_neg at hbad
          by_cases hfill : shouldReturn
              ((fillStates (decB clk syns tensors) bCodes bMsgs).map (·.code)) = true
          · rw [axonBackward_directShort cfg clk syns tensors prio _ outs bCodes
              bMsgs h0 h1 hlen hdec hp rfl hbad.1 hbad.2 hfill]
            rfl
          · rw [Bool.not_eq_true] at hfill
            rw [axonBackward_directFinal cfg clk syns tensors prio _ outs bCodes
              bMsgs h0 h1 hlen hdec hp rfl hbad.1 hbad.2 hfill]
            rfl

/-- C5: for every call (forward or backward) in which every synapse
fails at the decode stage, the compute callback is never invoked and the
call returns immediately with the first synapse code as the overall
code. -/
theorem c5_decode_shortcircuit (cfg : AxonCfg) (clk : Clock)
    (syns : List Syn) (tensors : List Payload) (prio : CalcRes Unit)
    (cb : CalcRes ComputeOut) :
    (tensors.length ≠ 0 → tensors.length = syns.length →
      shouldReturn ((decF clk syns tensors).map (·.code)) = true →
      (axonForward cfg clk syns tensors prio cb).computeInvoked = false ∧
      (axonForward cfg clk syns tensors prio cb).tensors = [] ∧
      (axonForward cfg clk syns tensors prio cb).code =
        firstCode ((decF clk syns tensors).map (·.code)) ∧
      (axonForward cfg clk syns tensors prio cb).codes =
        (decF clk syns tensors).map (·.code)) ∧
    (tensors.length ≠ 0 → ¬ tensors.length < 2 →
      tensors.length = 2 * syns.length →
      shouldReturn ((decB clk syns tensors).map (·.code)) = true →
      (axonBackward cfg clk syns tensors prio cb).computeInvoked = false ∧
      (axonBackward cfg clk syns tensors prio cb).tensors = [] ∧
      (axonBackward cfg clk syns tensors prio cb).code =
        firstCode ((decB clk syns tensors).map (·.code)) ∧
      (axonBackward cfg clk syns tensors prio cb).codes =
        (decB clk syns tensors).map (·.code)) := by
  constructor
  · intro h0 hlen hdec
    rw [axonForward_decodeFail cfg clk syns tensors prio cb h0 hlen hdec]
    exact ⟨rfl, rfl, rfl, rfl⟩
  · intro h0 h1 hlen hdec
    rw [axonBackward_decodeFail cfg clk syns tensors prio cb h0 h1 hlen hdec]
    exact ⟨rfl, rfl, rfl, rfl⟩

/-- C5 witness: a forward call and a backward call on one synapse whose
deserialization raises, evaluated concretely. -/
theorem c5_decode_shortcircuit_witness :
    ((axonForward cfgDirect clkZero [synDecodeFail] [3] prioOk cbNil).computeInvoked = false ∧
      (axonForward cfgDirect clkZero [synDecodeFail] [3] prioOk cbNil).tensors = [] ∧
      (axonForward cfgDirect clkZero [synDecodeFail] [3] prioOk cbNil).code =
        firstCode ((decF clkZero [synDecodeFail] [3]).map (·.code)) ∧
      (axonForward cfgDirect clkZero [synDecodeFail] [3] prioOk cbNil).codes =
        (decF clkZero [synDecodeFail] [3]).map (·.code)) ∧
    ((axonBackward cfgDirect clkZero [synDecodeFail] [3, 4] prioOk cbNil).computeInvoked = false ∧
      (axonBackward cfgDirect clkZero [synDecodeFail] [3, 4] prioOk cbNil).tensors = [] ∧
      (axonBackward cfgDirect clkZero [synDecodeFail] [3, 4] prioOk cbNil).code =
        firstCode ((decB clkZero [synDecodeFail] [3, 4]).map (·.code)) ∧
      (axonBackward cfgDirect clkZero [synDecodeFail] [3, 4] prioOk cbNil).codes =
        (decB clkZero [synDecodeFail] [3, 4]).map (·.code)) :=
  ⟨(c5_decode_shortcircuit cfgDirect clkZero [synDecodeFail] [3] prioOk cbNil).1
      (by decide) (by decide) (by decide),
    (c5_decode_shortcircuit cfgDirect clkZero [synDecodeFail] [3, 4] prioOk cbNil).2
      (by decide) (by decide) (by decide) (by decide)⟩

/-- C4 (code bug): the claim fails on one input region.  When the
compute stage is reached in priority mode and the priority function
raises `concurrent.futures.TimeoutError`, the timeout handler
dereferences the still unbound local `future` and an `UnboundLocalError`
escapes `_forward` — no uniform `Timeout` outcome, no returned triple.
By contrast, the same timeout error raised in direct mode is converted
to the claimed uniform `Timeout` with an empty payload. -/
theorem c4_priority_timeout_escape (clk : Clock) (syns : List Syn)
    (tensors : List Payload) (prio : CalcRes Unit) (cb : CalcRes ComputeOut)
    (h0 : tensors.length ≠ 0) (hlen : tensors.length = syns.length)
    (hdec : shouldReturn ((decF clk syns tensors).map (·.code)) = false) :
    axonForwardE cfgPriority clk syns tensors CalcRes.timeoutE cb =
      Except.error
        "UnboundLocalError: local variable \x27future\x27 referenced before assignment" ∧
    axonForwardE cfgDirect clk syns tensors prio CalcRes.timeoutE =
      Except.ok (axonForward cfgDirect clk syns tensors prio CalcRes.timeoutE) ∧
    (axonForward cfgDirect clk syns tensors prio CalcRes.timeoutE).code =
      ReturnCode.Timeout ∧
    (axonForward cfgDirect clk syns tensors prio CalcRes.timeoutE).codes =
      List.replicate syns.length ReturnCode.Timeout ∧
    (axonForward cfgDirect clk syns tensors prio CalcRes.timeoutE).tensors = [] := by
  refine ⟨?_, ?_, ?_⟩
  · unfold axonForwardE
    rw [if_pos ⟨h0, hlen, hdec, rfl, rfl⟩]
  · unfold axonForwardE
    rw [if_neg]
    intro hcond
    exact absurd hcond.2.2.2.1 (by decide)
  · rw [axonForward_timeout cfgDirect clk syns tensors prio CalcRes.timeoutE
      h0 hlen hdec rfl]
    exact ⟨rfl, rfl, rfl⟩

/-- C4 witness: the escape and the direct-mode contrast evaluated at a
concrete one-synapse forward call. -/
theorem c4_priority_timeout_escape_witness :
    axonForwardE cfgPriority clkZero [synTriv] [1] CalcRes.timeoutE cbNil =
      Except.error
        "UnboundLocalError: local variable \x27future\x27 referenced before assignment" ∧
    axonForwardE cfgDirect clkZero [synTriv] [1] prioOk CalcRes.timeoutE =
      Except.ok (axonForward cfgDirect clkZero [synTriv] [1] prioOk CalcRes.timeoutE) ∧
    (axonForward cfgDirect clkZero [synTriv] [1] prioOk CalcRes.timeoutE).code =
      ReturnCode.Timeout ∧
    (axonForward cfgDirect clkZero [synTriv] [1] prioOk CalcRes.timeoutE).codes =
      List.replicate 1 ReturnCode.Timeout ∧
    (axonForward cfgDirect clkZero [synTriv] [1] prioOk CalcRes.timeoutE).tensors = [] :=
  c4_priority_timeout_escape clkZero [synTriv] [1] prioOk cbNil
    (by decide) (by decide) (by decide)

/-- C2: for every forward call in which every synapse outcome is
non-`Success` after the compute stage, the call returns with an empty
payload and the first post-compute code as the overall code, the
per-synapse outcomes are exactly the post-compute outcomes, and no
per-synapse response serialization is invoked. -/
theorem c2_compute_shortcircuit (cfg : AxonCfg) (clk : Clock)
    (syns : List Syn) (tensors : List Payload) (prio : CalcRes Unit)
    (cb : CalcRes ComputeOut) (outs : List (Option Payload))
    (fCodes : List ReturnCode) (fMsgs : List String)
    (h0 : tensors.length ≠ 0) (hlen : tensors.length = syns.length)
    (hdec : shouldReturn ((decF clk syns tensors).map (·.code)) = false)
    (hc : computeOutcome cfg prio cb = .ok (outs, fCodes, fMsgs))
    (hf1 : syns.length ≤ fCodes.length) (hf2 : syns.length ≤ fMsgs.length)
    (hall : ∀ c ∈ (fillStates (decF clk syns tensors) fCodes fMsgs).map (·.code),
      c ≠ ReturnCode.Success) :
    (axonForward cfg clk syns tensors prio cb).serializeInvoked = false ∧
    (axonForward cfg clk syns tensors prio cb).tensors = [] ∧
    (axonForward cfg clk syns tensors prio cb).codes =
      (fillStates (decF clk syns tensors) fCodes fMsgs).map (·.code) ∧
    (axonForward cfg clk syns tensors prio cb).code =
      firstCode ((fillStates (decF clk syns tensors) fCodes fMsgs).map (·.code)) := by
  have hallS : ∀ s ∈ fillStates (decF clk syns tensors) fCodes fMsgs,
      s.code ≠ ReturnCode.Success := by
    intro s hs
    exact hall s.code (List.mem_map_of_mem _ hs)
  have hle : (fillStates (decF clk syns tensors) fCodes fMsgs).length ≤ syns.length := by
    rw [length_fillStates]
    rw [length_decF clk syns tensors hlen]
    omega
  have hfst : (encF clk syns tensors fCodes fMsgs outs).map (·.1) =
      fillStates (decF clk syns tensors) fCodes fMsgs :=
    encodeStage_map_fst_of_no_success clk 0 syns
      (fillStates (decF clk syns tensors) fCodes fMsgs) outs hle hallS
  have hcodes : (encF clk syns tensors fCodes fMsgs outs).map (·.1.code) =
      (fillStates (decF clk syns tensors) fCodes fMsgs).map (·.code) := by
    rw [show (encF clk syns tensors fCodes fMsgs outs).map (·.1.code) =
      ((encF clk syns tensors fCodes fMsgs outs).map (·.1)).map (·.code) by
        rw [List.map_map]; rfl]
    rw [hfst]
  have henc : shouldReturn
      ((encF clk syns tensors fCodes fMsgs outs).map (·.1.code)) = true := by
    rw [hcodes, shouldReturn_iff]
    exact hall
  rw [axonForward_encodeShort cfg clk syns tensors prio cb outs fCodes fMsgs
    h0 hlen hdec hc hf1 hf2 henc]
  refine ⟨serializeHappens_eq_false _ outs hallS, rfl, ?_, ?_⟩
  · show ((encF clk syns tensors fCodes fMsgs outs).map (·.1)).map (·.code) = _
    rw [hfst]
  · show firstCode ((encF clk syns tensors fCodes fMsgs outs).map (·.1.code)) = _
    rw [hcodes]

/-- C2 witness: a forward call on one synapse whose callback reports
`NotImplemented`, evaluated concretely. -/
theorem c2_compute_shortcircuit_witness :
    (axonForward cfgDirect clkZero [synTriv] [1] prioOk
      (CalcRes.ok ([some 0], [ReturnCode.NotImplemented], ["ni"]))).serializeInvoked = false ∧
    (axonForward cfgDirect clkZero [synTriv] [1] prioOk
      (CalcRes.ok ([some 0], [ReturnCode.NotImplemented], ["ni"]))).tensors = [] ∧
    (axonForward cfgDirect clkZero [synTriv] [1] prioOk
      (CalcRes.ok ([some 0], [ReturnCode.NotImplemented], ["ni"]))).codes =
      (fillStates (decF clkZero [synTriv] [1]) [ReturnCode.NotImplemented] ["ni"]).map (·.code) ∧
    (axonForward cfgDirect clkZero [synTriv] [1] prioOk
      (CalcRes.ok ([some 0], [ReturnCode.NotImplemented], ["ni"]))).code =
      firstCode ((fillStates (decF clkZero [synTriv] [1])
        [ReturnCode.NotImplemented] ["ni"]).map (·.code)) :=
  c2_compute_shortcircuit cfgDirect clkZero [synTriv] [1] prioOk
    (CalcRes.ok ([some 0], [ReturnCode.NotImplemented], ["ni"]))
    [some 0] [ReturnCode.NotImplemented] ["ni"]
    (by decide) (by decide) (by decide) rfl (by decide) (by decide)
    (by decide)

theorem ne_nil_of_length_ne_zero {α : Type} {l : List α}
    (h : l.length ≠ 0) : l ≠ [] := by
  intro hnil
  subst hnil
  exact h rfl

/-- A uniform result with a non-`Success` code satisfies the aggregate
invariant. -/
theorem aggInvariant_of_uniform (n : Nat) (c : ReturnCode) (m : String)
    (t : Nat) (ir : List Bool) (d i : Bool)
    (hc : c ≠ ReturnCode.Success) :
    aggInvariant (uniformResult n c m t ir d i) := by
  refine ⟨?_, ?_⟩
  · show c = ReturnCode.Success ↔ ReturnCode.Success ∈ List.replicate n c
    constructor
    · intro h
      exact absurd h hc
    · intro h
      exact absurd (List.eq_of_mem_replicate h).symm hc
  · intro hne hnm
    show c = (List.replicate n c).headD ReturnCode.Success
    have hn : n ≠ 0 := by
      intro h0
      subst h0
      exact hne rfl
    rw [headD_replicate n c _ hn]

/-- A first-failure-code result over an all-failed nonempty code list
satisfies the aggregate invariant. -/
theorem aggInvariant_of_first (r : CallResult) (l : List ReturnCode)
    (hcode : r.code = firstCode l) (hcodes : r.codes = l)
    (hne : l ≠ []) (hSR : shouldReturn l = true) : aggInvariant r := by
  have hall := (shouldReturn_iff l).mp hSR
  constructor
  · rw [hcode, hcodes]
    constructor
    · intro h
      cases l with
      | nil => exact absurd rfl hne
      | cons x xs => exact absurd h (hall x (by simp))
    · intro h
      exact absurd rfl (hall _ h)
  · intro _ _
    rw [hcode, hcodes]
    rfl

/-- A `Success` result whose code list retains a `Success` entry
satisfies the aggregate invariant. -/
theorem aggInvariant_of_success (r : CallResult) (l : List ReturnCode)
    (hcode : r.code = ReturnCode.Success) (hcodes : r.codes = l)
    (hSR : shouldReturn l = false) : aggInvariant r := by
  have hmem := (shouldReturn_false_iff l).mp hSR
  constructor
  · rw [hcode, hcodes]
    exact ⟨fun _ => hmem, fun _ => rfl⟩
  · intro hne hnm
    rw [hcodes] at hnm
    exact absurd hmem hnm

/-- C1: for every call (forward or backward) the overall return code is
`Success` exactly when at least one synapse outcome is `Success`; when
every synapse outcome is non-`Success` the overall return code is the
code of the first synapse in sequence order. -/
theorem c1_overall_code (cfg : AxonCfg) (clk : Clock) (syns : List Syn)
    (tensors : List Payload) (prio : CalcRes Unit) (cb : CalcRes ComputeOut) :
    aggInvariant (axonForward cfg clk syns tensors prio cb) ∧
    aggInvariant (axonBackward cfg clk syns tensors prio cb) := by
  constructor
  · by_cases h0 : tensors.length = 0
    · rw [axonForward_empty cfg clk syns tensors prio cb h0]
      exact aggInvariant_of_uniform syns.length _ _ _ _ _ _ (by decide)
    by_cases hlen : tensors.length = syns.length
    case neg =>
      rw [axonForward_shape cfg clk syns tensors prio cb h0 hlen]
      exact aggInvariant_of_uniform syns.length _ _ _ _ _ _ (by decide)
    have hn : syns.length ≠ 0 := by omega
    by_cases hdec : shouldReturn ((decF clk syns tensors).map (·.code)) = true
    · rw [axonForward_decodeFail cfg clk syns tensors prio cb h0 hlen hdec]
      refine aggInvariant_of_first _ _ rfl rfl ?_ hdec
      refine ne_nil_of_length_ne_zero ?_
      rw [List.length_map, length_decF clk syns tensors hlen]
      exact hn
    rw [Bool.not_eq_true] at hdec
    cases hco : computeOutcome cfg prio cb with
    | timeoutE =>
        rw [axonForward_timeout cfg clk syns tensors prio cb h0 hlen hdec hco]
        exact aggInvariant_of_uniform syns.length _ _ _ _ _ _ (by decide)
    | exnE m =>
        rw [axonForward_exn cfg clk syns tensors prio cb m h0 hlen hdec hco]
        exact aggInvariant_of_uniform syns.length _ _ _ _ _ _ (by decide)
    | ok v =>
        obtain ⟨outs, fCodes, fMsgs⟩ := v
        by_cases hbad : fCodes.length < syns.length ∨ fMsgs.length < syns.length
        · rw [axonForward_indexErr cfg clk syns tensors prio cb outs fCodes fMsgs
            h0 hlen hdec hco hbad]
          exact aggInvariant_of_uniform syns.length _ _ _ _ _ _ (by decide)
        push_neg at hbad
        by_cases henc : shouldReturn
            ((encF clk syns tensors fCodes fMsgs outs).map (·.1.code)) = true
        · rw [axonForward_encodeShort cfg clk syns tensors prio cb outs fCodes
            fMsgs h0 hlen hdec hco hbad.1 hbad.2 henc]
          refine aggInvariant_of_first _ _ ?_ ?_ ?_ henc
          · rfl
          · show ((encF clk syns tensors fCodes fMsgs outs).map (·.1)).map (·.code) = _
            rw [List.map_map]
            rfl
          · refine ne_nil_of_length_ne_zero ?_
            rw [List.length_map, length_encF clk syns tensors fCodes fMsgs outs
              hlen hbad.1 hbad.2]
            exact hn
        · rw [Bool.not_eq_true] at henc
          rw [axonForward_final cfg clk syns tensors prio cb outs fCodes fMsgs
            h0 hlen hdec hco hbad.1 hbad.2 henc]
          refine aggInvariant_of_success _ _ ?_ ?_ henc
          · rfl
          show ((setFinalTimes clk 0 (encF clk syns tensors fCodes fMsgs outs)).map
            (·.1)).map (·.code) = _
          rw [List.map_map]
          exact setFinalTimes_map_code clk 0 _
  · by_cases h0 : tensors.length = 0
    · rw [axonBackward_empty cfg clk syns tensors prio cb h0]
      exact aggInvariant_of_uniform syns.length _ _ _ _ _ _ (by decide)
    by_cases h1 : tensors.length < 2
    · rw [axonBackward_invalid cfg clk syns tensors prio cb h0 h1]
      exact aggInvariant_of_uniform syns.length _ _ _ _ _ _ (by decide)
    by_cases hlen : tensors.length = 2 * syns.length
    case neg =>
      rw [axonBackward_shape cfg clk syns tensors prio cb h0 h1 hlen]
      exact aggInvariant_of_uniform syns.length _ _ _ _ _ _ (by decide)
    have hn : syns.length ≠ 0 := by omega
    by_cases hdec : shouldReturn ((decB clk syns tensors).map (·.code)) = true
    · rw [axonBackward_decodeFail cfg clk syns tensors prio cb h0 h1 hlen hdec]
      refine aggInvariant_of_first _ _ rfl rfl ?_ hdec
      refine ne_nil_of_length_ne_zero ?_
      rw [List.length_map, length_decB clk syns tensors hlen]
      exact hn
    rw [Bool.not_eq_true] at hdec
    by_cases hp : cfg.priorityMode = true
    · cases prio with
      | ok u =>
          cases u
          rw [axonBackward_prioSubmit cfg clk syns tensors _ cb h0 h1 hlen hdec hp rfl]
          refine aggInvariant_of_success _ _ ?_ ?_ hdec
          · rfl
          exact setFinalTimesB_map_code clk 0 _
      | timeoutE =>
          rw [axonBackward_prioTimeout cfg clk syns tensors _ cb h0 h1 hlen hdec hp rfl]
          exact aggInvariant_of_uniform syns.length _ _ _ _ _ _ (by decide)
      | exnE m =>
          rw [axonBackward_prioExn cfg clk syns tensors _ cb m h0 h1 hlen hdec hp rfl]
          exact aggInvariant_of_uniform syns.length _ _ _ _ _ _ (by decide)
    · rw [Bool.not_eq_true] at hp
      cases cb with
      | timeoutE =>
          rw [axonBackward_directTimeout cfg clk syns tensors prio _ h0 h1 hlen
            hdec hp rfl]
          exact aggInvariant_of_uniform syns.length _ _ _ _ _ _ (by decide)
      | exnE m =>
          rw [axonBackward_directExn cfg clk syns tensors prio _ m h0 h1 hlen
            hdec hp rfl]
          exact aggInvariant_of_uniform syns.length _ _ _ _ _ _ (by decide)
      | ok v =>
          obtain ⟨outs, bCodes, bMsgs⟩ := v
          by_cases hbad : bCodes.length < syns.length ∨ bMsgs.length < syns.length
          · rw [axonBackward_directIndexErr cfg clk syns tensors prio _ outs
              bCodes bMsgs h0 h1 hlen hdec hp rfl hbad]
            exact aggInvariant_of_uniform syns.length _ _ _ _ _ _ (by decide)
          push_neg at hbad
          by_cases hfill : shouldReturn
              ((fillStates (decB clk syns tensors) bCodes bMsgs).map (·.code)) = true
          · rw [axonBackward_directShort cfg clk syns tensors prio _ outs bCodes
              bMsgs h0 h1 hlen hdec hp rfl hbad.1 hbad.2 hfill]
            refine aggInvariant_of_first _ _ rfl rfl ?_ hfill
            refine ne_nil_of_length_ne_zero ?_
            rw [List.length_map, length_fillStates,
              length_decB clk syns tensors hlen]
            omega
          · rw [Bool.not_eq_true] at hfill
            rw [axonBackward_directFinal cfg clk syns tensors prio _ outs bCodes
              bMsgs h0 h1 hlen hdec hp rfl hbad.1 hbad.2 hfill]
            refine aggInvariant_of_success _ _ ?_ ?_ hfill
            · rfl
            exact setFinalTimesB_map_code clk 0 _

/-- C1 witness: a forward call on one synapse whose deserialization
fails, evaluated concretely: the overall code equals the first synapse
code. -/
theorem c1_overall_code_witness :
    (axonForward cfgDirect clkZero [synDecodeFail] [2] prioOk cbNil).code =
      (axonForward cfgDirect clkZero [synDecodeFail] [2] prioOk cbNil).codes.headD
        ReturnCode.Success :=
  (c1_overall_code cfgDirect clkZero [synDecodeFail] [2] prioOk cbNil).1.2
    (by decide) (by decide)

/-- On every forward path, the outcome arrays keep the synapse count. -/
theorem axonForward_lengths (cfg : AxonCfg) (clk : Clock) (syns : List Syn)
    (tensors : List Payload) (prio : CalcRes Unit) (cb : CalcRes ComputeOut) :
    (axonForward cfg clk syns tensors prio cb).codes.length = syns.length ∧
    (axonForward cfg clk syns tensors prio cb).messages.length = syns.length ∧
    (axonForward cfg clk syns tensors prio cb).callTimes.length = syns.length ∧
    (axonForward cfg clk syns tensors prio cb).isResponse.length = syns.length := by
  by_cases h0 : tensors.length = 0
  · rw [axonForward_empty cfg clk syns tensors prio cb h0]
    simp [uniformResult, initIsResponse]
  by_cases hlen : tensors.length = syns.length
  case neg =>
    rw [axonForward_shape cfg clk syns tensors prio cb h0 hlen]
    simp [uniformResult, initIsResponse]
  by_cases hdec : shouldReturn ((decF clk syns tensors).map (·.code)) = true
  · rw [axonForward_decodeFail cfg clk syns tensors prio cb h0 hlen hdec]
    simp [stateResult, initIsResponse, length_decF clk syns tensors hlen]
  rw [Bool.not_eq_true] at hdec
  cases hco : computeOutcome cfg prio cb with
  | timeoutE =>
      rw [axonForward_timeout cfg clk syns tensors prio cb h0 hlen hdec hco]
      simp [uniformResult, initIsResponse]
  | exnE m =>
      rw [axonForward_exn cfg clk syns tensors prio cb m h0 hlen hdec hco]
      simp [uniformResult, initIsResponse]
  | ok v =>
      obtain ⟨outs, fCodes, fMsgs⟩ := v
      by_cases hbad : fCodes.length < syns.length ∨ fMsgs.length < syns.length
      · rw [axonForward_indexErr cfg clk syns tensors prio cb outs fCodes fMsgs
          h0 hlen hdec hco hbad]
        simp [uniformResult]
      push_neg at hbad
      by_cases henc : shouldReturn
          ((encF clk syns tensors fCodes fMsgs outs).map (·.1.code)) = true
      · rw [axonForward_encodeShort cfg clk syns tensors prio cb outs fCodes
          fMsgs h0 hlen hdec hco hbad.1 hbad.2 henc]
        simp [stateResult,
          length_encF clk syns tensors fCodes fMsgs outs hlen hbad.1 hbad.2]
      · rw [Bool.not_eq_true] at henc
        rw [axonForward_final cfg clk syns tensors prio cb outs fCodes fMsgs
          h0 hlen hdec hco hbad.1 hbad.2 henc]
        simp [stateResult, length_setFinalTimes,
          length_encF clk syns tensors fCodes fMsgs outs hlen hbad.1 hbad.2]

/-- On every backward path, the outcome arrays keep the synapse count. -/
theorem axonBackward_lengths (cfg : AxonCfg) (clk : Clock) (syns : List Syn)
    (tensors : List Payload) (prio : CalcRes Unit) (cb : CalcRes ComputeOut) :
    (axonBackward cfg clk syns tensors prio cb).codes.length = syns.length ∧
    (axonBackward cfg clk syns tensors prio cb).messages.length = syns.length ∧
    (axonBackward cfg clk syns tensors prio cb).callTimes.length = syns.length ∧
    (axonBackward cfg clk syns tensors prio cb).isResponse.length = syns.length := by
  by_cases h0 : tensors.length = 0
  · rw [axonBackward_empty cfg clk syns tensors prio cb h0]
    simp [uniformResult, initIsResponse]
  by_cases h1 : tensors.length < 2
  · rw [axonBackward_invalid cfg clk syns tensors prio cb h0 h1]
    simp [uniformResult, initIsResponse]
  by_cases hlen : tensors.length = 2 * syns.length
  case neg =>
    rw [axonBackward_shape cfg clk syns tensors prio cb h0 h1 hlen]
    simp [uniformResult, initIsResponse]
  by_cases hdec : shouldReturn ((decB clk syns tensors).map (·.code)) = true
  · rw [axonBackward_decodeFail cfg clk syns tensors prio cb h0 h1 hlen hdec]
    simp [stateResult, initIsResponse, length_decB clk syns tensors hlen]
  rw [Bool.not_eq_true] at hdec
  by_cases hp : cfg.priorityMode = true
  · cases prio with
    | ok u =>
        cases u
        rw [axonBackward_prioSubmit cfg clk syns tensors _ cb h0 h1 hlen hdec hp rfl]
        simp [stateResult, length_setFinalTimesB, length_decB clk syns tensors hlen]
    | timeoutE =>
        rw [axonBackward_prioTimeout cfg clk syns tensors _ cb h0 h1 hlen hdec hp rfl]
        simp [uniformResult]
    | exnE m =>
        rw [axonBackward_prioExn cfg clk syns tensors _ cb m h0 h1 hlen hdec hp rfl]
        simp [uniformResult]
  · rw [Bool.not_eq_true] at hp
    cases cb with
    | timeoutE =>
        rw [axonBackward_directTimeout cfg clk syns tensors prio _ h0 h1 hlen hdec hp rfl]
        simp [uniformResult]
    | exnE m =>
        rw [axonBackward_directExn cfg clk syns tensors prio _ m h0 h1 hlen hdec hp rfl]
        simp [uniformResult]
    | ok v =>
        obtain ⟨outs, bCodes, bMsgs⟩ := v
        by_cases hbad : bCodes.length < syns.length ∨ bMsgs.length < syns.length
        · rw [axonBackward_directIndexErr cfg clk syns tensors prio _ outs bCodes
            bMsgs h0 h1 hlen hdec hp rfl hbad]
          simp [uniformResult]
        push_neg at hbad
        by_cases hfill : shouldReturn
            ((fillStates (decB clk syns tensors) bCodes bMsgs).map (·.code)) = true
        · rw [axonBackward_directShort cfg clk syns tensors prio _ outs bCodes
            bMsgs h0 h1 hlen hdec hp rfl hbad.1 hbad.2 hfill]
          simp [stateResult, length_fillStates, length_decB clk syns tensors hlen]
          omega
        · rw [Bool.not_eq_true] at hfill
          rw [axonBackward_directFinal cfg clk syns tensors prio _ outs bCodes
            bMsgs h0 h1 hlen hdec hp rfl hbad.1 hbad.2 hfill]
          simp [stateResult, length_setFinalTimesB, length_fillStates,
            length_decB clk syns tensors hlen]
          omega

/-- C3: for every call, after every pipeline stage the per-synapse
outcome arrays have exactly the synapse count, and every entry is
initialized to `Success` with a not-yet-a-response marker before any
stage runs. -/
theorem c3_outcome_lengths (cfg : AxonCfg) (clk : Clock) (syns : List Syn)
    (tensors : List Payload) (prio : CalcRes Unit) (cb : CalcRes ComputeOut) :
    ((axonForward cfg clk syns tensors prio cb).codes.length = syns.length ∧
      (axonForward cfg clk syns tensors prio cb).messages.length = syns.length ∧
      (axonForward cfg clk syns tensors prio cb).callTimes.length = syns.length ∧
      (axonForward cfg clk syns tensors prio cb).isResponse.length = syns.length) ∧
    ((axonBackward cfg clk syns tensors prio cb).codes.length = syns.length ∧
      (axonBackward cfg clk syns tensors prio cb).messages.length = syns.length ∧
      (axonBackward cfg clk syns tensors prio cb).callTimes.length = syns.length ∧
      (axonBackward cfg clk syns tensors prio cb).isResponse.length = syns.length) ∧
    ((initState syns.length).length = syns.length ∧
      (initIsResponse syns.length).length = syns.length ∧
      (initIsResponse syns.length) = List.replicate syns.length false ∧
      ∀ s ∈ initState syns.length, s.code = ReturnCode.Success ∧
        s.message = "Success" ∧ s.callTime = 0 ∧ s.input = none) ∧
    (tensors.length = syns.length →
      (decF clk syns tensors).length = syns.length) ∧
    (tensors.length = 2 * syns.length →
      (decB clk syns tensors).length = syns.length) ∧
    (∀ (fCodes : List ReturnCode) (fMsgs : List String)
        (outs : List (Option Payload)),
      tensors.length = syns.length →
      syns.length ≤ fCodes.length → syns.length ≤ fMsgs.length →
      (fillStates (decF clk syns tensors) fCodes fMsgs).length = syns.length ∧
      (encF clk syns tensors fCodes fMsgs outs).length = syns.length) :=
  ⟨axonForward_lengths cfg clk syns tensors prio cb,
    axonBackward_lengths cfg clk syns tensors prio cb,
    ⟨length_initState _, length_initIsResponse _, rfl, initState_entries _⟩,
    length_decF clk syns tensors,
    length_decB clk syns tensors,
    fun fCodes fMsgs outs hlen hf1 hf2 =>
      ⟨by
        rw [length_fillStates, length_decF clk syns tensors hlen]
        omega,
        length_encF clk syns tensors fCodes fMsgs outs hlen hf1 hf2⟩⟩

/-- C3 witness: the length invariant evaluated at concrete forward and
backward calls on one synapse. -/
theorem c3_outcome_lengths_witness :
    (axonForward cfgDirect clkZero [synTriv] [1] prioOk cbNil).codes.length = 1 ∧
    (axonBackward cfgDirect clkZero [synTriv] [1, 2] prioOk cbNil).codes.length = 1 ∧
    (decF clkZero [synTriv] [1]).length = 1 ∧
    (decB clkZero [synTriv] [1, 2]).length = 1 ∧
    (fillStates (decF clkZero [synTriv] [1]) [ReturnCode.Success] ["ok"]).length = 1 ∧
    (encF clkZero [synTriv] [1] [ReturnCode.Success] ["ok"] [some 0]).length = 1 :=
  ⟨(c3_outcome_lengths cfgDirect clkZero [synTriv] [1] prioOk cbNil).1.1,
    (c3_outcome_lengths cfgDirect clkZero [synTriv] [1, 2] prioOk cbNil).2.1.1,
    (c3_outcome_lengths cfgDirect clkZero [synTriv] [1] prioOk cbNil).2.2.2.1
      (by decide),
    (c3_outcome_lengths cfgDirect clkZero [synTriv] [1, 2] prioOk cbNil).2.2.2.2.1
      (by decide),
    ((c3_outcome_lengths cfgDirect clkZero [synTriv] [1] prioOk cbNil).2.2.2.2.2
      [ReturnCode.Success] ["ok"] [some 0] (by decide) (by decide) (by decide)).1,
    ((c3_outcome_lengths cfgDirect clkZero [synTriv] [1] prioOk cbNil).2.2.2.2.2
      [ReturnCode.Success] ["ok"] [some 0] (by decide) (by decide) (by decide)).2⟩

/-- C10: for every backward call in priority mode that passes validation
and in which at least one synapse decodes successfully, the overall
return code is `Success`, every synapse that survived decode keeps its
initial `Success` code and `"Success"` message, and the result is the
same for every possible behaviour of the backward compute callback — its
result is never read in this mode. -/
theorem c10_backward_priority_ignores_callback (clk : Clock)
    (syns : List Syn) (tensors : List Payload)
    (cb cb2 : CalcRes ComputeOut)
    (h2 : 2 ≤ tensors.length) (hlen : tensors.length = 2 * syns.length)
    (hdec : shouldReturn ((decB clk syns tensors).map (·.code)) = false) :
    (axonBackward cfgPriority clk syns tensors prioOk cb).code =
      ReturnCode.Success ∧
    (∀ i : Nat,
      ((decB clk syns tensors).map (·.code)).get? i = some ReturnCode.Success →
      (axonBackward cfgPriority clk syns tensors prioOk cb).codes.get? i =
        some ReturnCode.Success ∧
      (axonBackward cfgPriority clk syns tensors prioOk cb).messages.get? i =
        some "Success") ∧
    axonBackward cfgPriority clk syns tensors prioOk cb =
      axonBackward cfgPriority clk syns tensors prioOk cb2 := by
  have h0 : tensors.length ≠ 0 := by omega
  have h1 : ¬ tensors.length < 2 := by omega
  have hP := axonBackward_prioSubmit cfgPriority clk syns tensors prioOk cb
    h0 h1 hlen hdec rfl rfl
  have hP2 := axonBackward_prioSubmit cfgPriority clk syns tensors prioOk cb2
    h0 h1 hlen hdec rfl rfl
  refine ⟨?_, ?_, ?_⟩
  · rw [hP]
    rfl
  · intro i hi
    rw [hP]
    constructor
    · show ((setFinalTimesB clk 0 (decB clk syns tensors)).map (·.code)).get? i = _
      rw [setFinalTimesB_map_code]
      exact hi
    · show ((setFinalTimesB clk 0 (decB clk syns tensors)).map (·.message)).get? i = _
      rw [setFinalTimesB_map_message]
      rw [List.get?_map] at hi ⊢
      cases hq : (decB clk syns tensors).get? i with
      | none =>
          rw [hq] at hi
          simp at hi
      | some s =>
          rw [hq] at hi
          simp at hi
          have hmsg := decodeStageB_message_of_success clk 0
            (initState syns.length) syns
            (tensors.take syns.length) (tensors.drop syns.length)
            (fun s0 hs0 => ((initState_entries syns.length) s0 hs0).2.1)
            s (List.get?_mem hq) hi
          simp [hq, hmsg]
  · rw [hP, hP2]

/-- C10 witness: a one-synapse backward call in priority mode whose
callback raises, evaluated concretely: the call still reports `Success`
everywhere and coincides with the run under a different callback. -/
theorem c10_backward_priority_ignores_callback_witness :
    (axonBackward cfgPriority clkZero [synTriv] [5, 7] prioOk
      (CalcRes.exnE "boom")).code = ReturnCode.Success ∧
    (axonBackward cfgPriority clkZero [synTriv] [5, 7] prioOk
      (CalcRes.exnE "boom")).codes.get? 0 = some ReturnCode.Success ∧
    (axonBackward cfgPriority clkZero [synTriv] [5, 7] prioOk
      (CalcRes.exnE "boom")).messages.get? 0 = some "Success" ∧
    axonBackward cfgPriority clkZero [synTriv] [5, 7] prioOk
      (CalcRes.exnE "boom") =
      axonBackward cfgPriority clkZero [synTriv] [5, 7] prioOk cbNil := by
  have h := c10_backward_priority_ignores_callback clkZero [synTriv] [5, 7]
    (CalcRes.exnE "boom") cbNil (by decide) (by decide) (by decide)
  exact ⟨h.1, (h.2.1 0 (by decide)).1, (h.2.1 0 (by decide)).2, h.2.2⟩

end Axon
